import Mathlib

/-
  Verification development for the lab-cluster module
  (src/rhub/api/lab/cluster.py of the rhub-api repository).

  The module is embedded shallowly: database queries and external
  collaborators (identity provider, Tower job client, OpenStack client,
  quota-usage computation, deletion trigger) are supplied through an
  explicit environment record, timestamps are integers (payload date
  strings are taken as already parsed, so date_parse is the identity),
  and the request-scoped SQLAlchemy session is an explicit record of
  pending (uncommitted) row additions together with rollback/commit
  flags.  Error responses produced through connexion problem(...) are
  records carrying the HTTP status code, the title (the machine
  readable error kind), the detail string and the structured extension
  data.  Interpolated identifiers and apostrophes are elided from the
  message strings; the constant parts are kept verbatim.  Unhandled
  Python exceptions (for example a KeyError) are a distinct outcome
  constructor.
-/

/-- Modelled from the spec: `ClusterStatus` enum of rhub.lab.model (the
model module is not under src/).  The spec asks for at least QUEUED,
CREATING variants, ACTIVE, DELETING variants, DELETED and FAILED
variants, with derived predicates; one representative of each variant
group is enough for this module, which only branches on the derived
predicates and on equality with DELETED / QUEUED. -/
inductive ClusterStatus where
  | queued
  | creating
  | active
  | deleting
  | deleted
  | failed
deriving DecidableEq

def ClusterStatus.is_deleted (s : ClusterStatus) : Bool := s == ClusterStatus.deleted

def ClusterStatus.is_deleting (s : ClusterStatus) : Bool := s == ClusterStatus.deleting

def ClusterStatus.is_creating (s : ClusterStatus) : Bool := s == ClusterStatus.creating

/-- Modelled from the spec: the per-user quota record of a region is a
fixed-shape numeric record with nullable fields (CPU, RAM, instance
count, volume count); create_cluster iterates over all of its keys. -/
inductive QuotaField where
  | num_vcpus
  | ram_mb
  | num_volumes
  | volumes_gb
deriving DecidableEq

def QuotaField.all : List QuotaField :=
  [QuotaField.num_vcpus, QuotaField.ram_mb, QuotaField.num_volumes, QuotaField.volumes_gb]

def QuotaField.name : QuotaField → String
  | QuotaField.num_vcpus => "num_vcpus"
  | QuotaField.ram_mb => "ram_mb"
  | QuotaField.num_volumes => "num_volumes"
  | QuotaField.volumes_gb => "volumes_gb"

structure Quota where
  num_vcpus : Option Nat
  ram_mb : Option Nat
  num_volumes : Option Nat
  volumes_gb : Option Nat
deriving DecidableEq

def Quota.get (q : Quota) : QuotaField → Option Nat
  | QuotaField.num_vcpus => q.num_vcpus
  | QuotaField.ram_mb => q.ram_mb
  | QuotaField.num_volumes => q.num_volumes
  | QuotaField.volumes_gb => q.volumes_gb

/-- Identity data of a principal, as resolved through auth_model /
auth_utils: the admin flag, the LAB_CLUSTER_ADMIN role, the set of
group ids, membership in the distinguished SHAREDCLUSTER_GROUP (which
auth_utils.is_user_in_group resolves by name), and the user name (used
for the deterministic default project name). -/
structure UserInfo where
  name : String
  is_admin : Bool
  has_cluster_admin_role : Bool
  group_ids : List Nat
  in_sharedcluster_group : Bool

/-- Region record, read-only input of this module (rhub.lab.model). -/
structure Region where
  id : Nat
  enabled : Bool
  reservations_enabled : Bool
  owner_group_id : Nat
  lifespan_enabled : Bool
  lifespan_delta : Int
  reservation_expiration_max : Bool
  reservation_expiration_max_delta : Int
  openstack_id : Nat
  tower_id : Nat
  user_quota : Option Quota
  enabled_products : List Nat
deriving DecidableEq

/-- Product record, read-only input.  validate_cluster_params raises on
invalid merged parameters; the raised information (e.args[0]) is
modelled as the `some` value of the validator. -/
structure Product where
  id : Nat
  name : String
  parameters_defaults : List (String × Int)
  flavors : Option (List (String × Nat))
  tower_template_name_create : String
  validate_cluster_params : List (String × Int) → Option String

structure Project where
  id : Nat
  cloud_id : Nat
  name : String
  owner_id : Nat
  group_id : Option Nat
deriving DecidableEq

/-- Modelled from the spec: the Cluster record of rhub.lab.model (not
under src/), with the fields cluster.py reads and writes.  The owner
is the owning principal; on create it is taken from the owning
project, matching list_clusters which resolves the owner through the
project join.  The status a freshly constructed record carries before
the explicit QUEUED assignment is not observable in any committed
state, and is modelled as QUEUED. -/
structure Cluster where
  id : Nat
  name : String
  region_id : Nat
  product_id : Nat
  project_id : Nat
  owner_id : Nat
  group_id : Option Nat
  status : ClusterStatus
  created : Int
  lifespan_expiration : Option Int
  reservation_expiration : Option Int
  product_params : List (String × Int)
deriving DecidableEq

/-- Modelled from the spec: the polymorphic ClusterEvent variants
(TowerJobEvent, LifespanChangeEvent, ReservationChangeEvent) as a sum
type with the shared base fields inlined in each variant. -/
inductive ClusterEvent where
  | towerJob (cluster_id : Nat) (user_id : Nat) (date : Int)
      (tower_id : Option Nat) (tower_job_id : Option Nat) (status : ClusterStatus)
  | lifespanChange (cluster_id : Nat) (user_id : Nat) (date : Int)
      (old_value : Option Int) (new_value : Option Int)
  | reservationChange (cluster_id : Nat) (user_id : Nat) (date : Int)
      (old_value : Option Int) (new_value : Option Int)
deriving DecidableEq

def ClusterEvent.cluster_id : ClusterEvent → Nat
  | ClusterEvent.towerJob c _ _ _ _ _ => c
  | ClusterEvent.lifespanChange c _ _ _ _ => c
  | ClusterEvent.reservationChange c _ _ _ _ => c

def ClusterEvent.is_tower_job : ClusterEvent → Bool
  | ClusterEvent.towerJob _ _ _ _ _ _ => true
  | _ => false

/-- A persisted ClusterEvent row: primary key plus the event data. -/
structure ClusterEventRec where
  id : Nat
  event : ClusterEvent
deriving DecidableEq

structure ClusterHost where
  id : Nat
  cluster_id : Nat
  fqdn : String
deriving DecidableEq

structure OsServer where
  hostname : String
deriving DecidableEq

structure TowerTemplate where
  id : Nat
  name : String
deriving DecidableEq

structure TowerJob where
  id : Nat
deriving DecidableEq

/-- Structured extension data attached to a problem response. -/
inductive ExtVal where
  | time (t : Int)
  | strs (l : List String)
  | str (s : String)
deriving DecidableEq

/-- A connexion problem(...) response: HTTP status code, title (the
machine readable error kind), detail message, extension data. -/
structure Problem where
  status : Nat
  title : String
  detail : String
  ext : List (String × ExtVal) := []
deriving DecidableEq

/-- Outcome of an operation: a success value, a problem response, or an
unhandled Python exception escaping the handler. -/
inductive Out (α : Type) where
  | ok (a : α)
  | err (p : Problem)
  | exn (msg : String)
deriving DecidableEq

def Out.getOk? {α : Type} : Out α → Option α
  | Out.ok a => some a
  | _ => none

/-- A row added to the request-scoped SQLAlchemy session. -/
inductive Row where
  | project (p : Project)
  | cluster (c : Cluster)
  | event (e : ClusterEvent)
deriving DecidableEq

/-- The request-scoped storage session: rows added (and flushed) but
not committed, whether db.session.rollback() was called, and whether
db.session.commit() was called. -/
structure Session where
  pending : List Row
  rolled_back : Bool
  committed : Bool
deriving DecidableEq

def Session.empty : Session := ⟨[], false, false⟩

def Session.add (s : Session) (r : Row) : Session :=
  { s with pending := s.pending ++ [r] }

def Session.rollback (s : Session) : Session :=
  { s with pending := [], rolled_back := true }

def Session.commit (s : Session) : Session :=
  { s with committed := true }

@[simp] theorem Session.empty_pending : Session.empty.pending = [] := rfl
@[simp] theorem Session.empty_rolled_back : Session.empty.rolled_back = false := rfl
@[simp] theorem Session.empty_committed : Session.empty.committed = false := rfl
@[simp] theorem Session.add_rolled_back (s : Session) (r : Row) :
    (s.add r).rolled_back = s.rolled_back := rfl
@[simp] theorem Session.add_committed (s : Session) (r : Row) :
    (s.add r).committed = s.committed := rfl
@[simp] theorem Session.rollback_pending (s : Session) : s.rollback.pending = [] := rfl
@[simp] theorem Session.rollback_rolled_back (s : Session) : s.rollback.rolled_back = true := rfl
@[simp] theorem Session.rollback_committed (s : Session) : s.rollback.committed = s.committed := rfl

/-- The create payload.  Optional timestamp fields distinguish an
absent key (outer none) from a key explicitly set to null (some none);
date strings are taken as already parsed integers. -/
structure CreateBody where
  name : String
  region_id : Nat
  product_id : Nat
  product_params : List (String × Int)
  shared : Bool
  lifespan_expiration : Option (Option Int)
  reservation_expiration : Option (Option Int)
  project_id : Option Nat
  group_id : Option Nat

/-- The update payload of update_cluster_extra: body.cluster_data plus
the optional tower_job_id.  The has_* flags record presence of the
immutable fields the code rejects; unclaimed mutable scalar fields are
not modelled. -/
structure UpdateBody where
  has_name : Bool
  has_region_id : Bool
  has_product_id : Bool
  has_product_params : Bool
  lifespan_expiration : Option (Option Int)
  reservation_expiration : Option (Option Int)
  status : Option ClusterStatus
  tower_job_id : Option Nat

/-- One entry of the explicit host list of a reboot request: a dict
that may carry an id and or an fqdn. -/
structure HostSel where
  id : Option Nat := none
  fqdn : Option String := none

/-- The hosts field of a reboot request: the literal string "all" or an
explicit selection list. -/
inductive RebootTarget where
  | all
  | sel (l : List HostSel)

structure RebootBody where
  hosts : RebootTarget
  rtype : String := "soft"

/-- The environment: database tables plus the external collaborators,
with its external side effects modelled as pure lookups.
user_can_access_region is the predicate imported from
rhub.api.lab.region (not under src/); cluster_usage and
region_user_quota_usage are lab_utils.calculate_cluster_usage and
Region.get_user_quota_usage (not under src/), both of which may raise;
tower_template_get / tower_template_launch are the Tower client;
list_servers / reboot_fails are the OpenStack compute client of a
project; tower_job_output is ClusterTowerJobEvent.get_tower_job_output
keyed by the event id; trigger_delete_fails is
lab_utils.delete_cluster.  All are modelled from the spec section on
external interfaces, as their code is not under src/. -/
structure Env where
  regions : Nat → Option Region
  products : Nat → Option Product
  clusters : List Cluster
  projects : List Project
  users : Nat → UserInfo
  sharedcluster_group_id : Option Nat
  user_can_access_region : Nat → Nat → Bool
  next_project_id : Nat
  next_cluster_id : Nat
  cluster_usage : Cluster → Except Unit (QuotaField → Nat)
  region_user_quota_usage : Nat → Nat → Except Unit (QuotaField → Nat)
  tower_template_get : String → Except Unit TowerTemplate
  tower_template_launch : Nat → Except Unit TowerJob
  cluster_events : List ClusterEventRec
  hosts : List ClusterHost
  list_servers : Nat → Except Unit (List OsServer)
  reboot_fails : String → Bool
  tower_job_output : Nat → Except Unit String
  trigger_delete_fails : Nat → Bool

/- ## Access policy (section of cluster.py lines 23-70) -/

def user_is_cluster_admin (env : Env) (user : Nat) : Bool :=
  (env.users user).is_admin || (env.users user).has_cluster_admin_role

def user_group_ids (env : Env) (user : Nat) : List Nat :=
  (env.users user).group_ids

def is_user_in_sharedcluster_group (env : Env) (user : Nat) : Bool :=
  (env.users user).in_sharedcluster_group

def user_can_access_cluster (env : Env) (cluster : Cluster) (user : Nat) : Bool :=
  if user_is_cluster_admin env user then true
  else if cluster.owner_id == user then true
  else match cluster.group_id with
    | some gid => (user_group_ids env user).contains gid
    | none => false

def user_can_create_reservation (env : Env) (region : Region) (user : Nat) : Bool :=
  if user_is_cluster_admin env user then true
  else if region.reservations_enabled then true
  else (user_group_ids env user).contains region.owner_group_id

def user_can_set_lifespan (env : Env) (region : Region) (user : Nat) : Bool :=
  if user_is_cluster_admin env user then true
  else if is_user_in_sharedcluster_group env user then true
  else (user_group_ids env user).contains region.owner_group_id

def user_can_disable_expiration (env : Env) (region : Region) (user : Nat) : Bool :=
  if user_is_cluster_admin env user then true
  else if is_user_in_sharedcluster_group env user then true
  else (user_group_ids env user).contains region.owner_group_id

def user_can_create_sharedcluster (env : Env) (user : Nat) : Bool :=
  if user_is_cluster_admin env user then true
  else is_user_in_sharedcluster_group env user

/-- Modelled from the spec: the Cluster.shared property of
rhub.lab.model (not under src/).  list_clusters in cluster.py filters
shared clusters as those whose group is the SHAREDCLUSTER_GROUP, so
the property holds when the cluster group is the resolved shared
cluster group id. -/
def cluster_is_shared (env : Env) (cluster : Cluster) : Bool :=
  match env.sharedcluster_group_id with
  | some gid => cluster.group_id == some gid
  | none => false

/-- Python dict union d1 | d2: keys of d1 in order with values
overridden by d2, then keys only in d2 in order. -/
def dict_union (d1 d2 : List (String × Int)) : List (String × Int) :=
  (d1.map (fun kv => (kv.1, ((d2.lookup kv.1).getD kv.2)))) ++
    (d2.filter (fun kv => !(d1.any (fun kv1 => kv1.1 == kv.1))))

/- ## create_cluster (cluster.py lines 225-461) -/

/-- Parsing of the reservation_expiration create field:
cluster_data.get(...) is not None selects an explicitly present
non-null value; an absent key and an explicit null both yield null. -/
def parse_reservation (field : Option (Option Int)) : Option Int :=
  match field with
  | some (some t) => some t
  | _ => none

/-- The lifespan_expiration block of create_cluster (lines 276-295),
applied to the cluster_data field state after shared handling. -/
def check_lifespan (env : Env) (region : Region) (user : Nat) (created : Int)
    (field : Option (Option Int)) : Except Problem (Option Int) :=
  if region.lifespan_enabled then
    match field with
    | some v =>
      if user_can_set_lifespan env region user then Except.ok v
      else Except.error ⟨403, "Forbidden",
        "Only admin and region owner can set lifespan expiration on clusters in the selected region.", []⟩
    | none => Except.ok (some (created + region.lifespan_delta))
  else Except.ok none

/-- The reservation_expiration_max block of create_cluster (lines
303-319): on create the cap base is the created timestamp. -/
def check_reservation_create (env : Env) (region : Region) (user : Nat) (created : Int)
    (reservation : Option Int) : Except Problem Unit :=
  if region.reservation_expiration_max then
    match reservation with
    | none =>
      if user_can_disable_expiration env region user then Except.ok ()
      else Except.error ⟨403, "Forbidden",
        "Only admin and region owner can set create clusters without expiration in the selected region.", []⟩
    | some r =>
      if r > created + region.reservation_expiration_max_delta then
        Except.error ⟨403, "Forbidden", "Exceeded maximal reservation time.",
          [("reservation_expiration_max",
            ExtVal.time (created + region.reservation_expiration_max_delta))]⟩
      else Except.ok ()
  else Except.ok ()

/-- The project resolution block of create_cluster (lines 325-371):
an explicit project must exist, belong to the region cloud, and be
owned by the caller unless the caller is a cluster admin; otherwise
the deterministic default project ql_username is looked up by (cloud,
name) and created when absent (the only write before the cluster
insert). -/
def resolve_project (env : Env) (region : Region) (shared : Bool) (user : Nat)
    (project_field : Option Nat) (s : Session) : Except Problem (Project × Session) :=
  match project_field with
  | some pid =>
    match env.projects.find? (fun p => p.id == pid) with
    | none => Except.error ⟨404, "Not Found", "Project does not exist", []⟩
    | some project =>
      if !(project.cloud_id == region.openstack_id) then
        Except.error ⟨400, "Bad Request",
          "Project does not belong to the selected OpenStack cloud", []⟩
      else if !(project.owner_id == user) && !(user_is_cluster_admin env user) then
        Except.error ⟨403, "Forbidden",
          "You do not have permission to create clusters in the selected project.", []⟩
      else Except.ok (project, s)
  | none =>
    let project_name := "ql_" ++ (env.users user).name
    match env.projects.find? (fun p => p.cloud_id == region.openstack_id && p.name == project_name) with
    | some project => Except.ok (project, s)
    | none =>
      let project : Project :=
        ⟨env.next_project_id, region.openstack_id, project_name, user,
          if shared then env.sharedcluster_group_id else none⟩
      Except.ok (project, s.add (Row.project project))

/-- Cluster.from_dict over the assembled cluster_data (line 374). -/
def mk_cluster (env : Env) (body : CreateBody) (product : Product) (project : Project)
    (created : Int) (lifespan reservation : Option Int) : Cluster :=
  { id := env.next_cluster_id
    name := body.name
    region_id := body.region_id
    product_id := body.product_id
    project_id := project.id
    owner_id := project.owner_id
    group_id := body.group_id
    status := ClusterStatus.queued
    created := created
    lifespan_expiration := lifespan
    reservation_expiration := reservation
    product_params := dict_union product.parameters_defaults body.product_params }

/-- The Tower launch block of create_cluster (lines 419-454): template
lookup and launch, then the QUEUED TowerJobEvent, the QUEUED status
and the commit; any Tower failure rolls the session back. -/
def launch_create (env : Env) (region : Region) (product : Product) (user : Nat)
    (now : Int) (cluster : Cluster) (s : Session) : Out Cluster × Session :=
  match env.tower_template_get product.tower_template_name_create with
  | Except.error _ =>
    (Out.err ⟨500, "Internal Server Error", "Failed to trigger cluster creation.", []⟩, s.rollback)
  | Except.ok tmpl =>
    match env.tower_template_launch tmpl.id with
    | Except.error _ =>
      (Out.err ⟨500, "Internal Server Error", "Failed to trigger cluster creation.", []⟩, s.rollback)
    | Except.ok job =>
      let ev := ClusterEvent.towerJob cluster.id user now
        (some region.tower_id) (some job.id) ClusterStatus.queued
      (Out.ok { cluster with status := ClusterStatus.queued },
        ((s.add (Row.event ev)).commit))

/-- The exceeded-resources collection of the quota block (lines
396-400): every quota field with a non-null limit whose current usage
plus the new cluster usage exceeds the limit. -/
def exceeded_fields (quota : Quota) (uu cu : QuotaField → Nat) : List QuotaField :=
  QuotaField.all.filter (fun k =>
    match quota.get k with
    | some lim => decide (uu k + cu k > lim)
    | none => false)

/-- The tail of create_cluster after the cluster insert (lines
380-454): product parameter validation (skipped for shared clusters,
rollback on failure), the quota block (only with a region quota,
product flavors and a non-shared cluster; a computation failure rolls
back, the quota-exceeded rejection returns with the session as is),
then the Tower launch. -/
def validate_quota_launch (env : Env) (region : Region) (product : Product) (shared : Bool)
    (user : Nat) (now : Int) (cluster : Cluster) (s : Session) : Out Cluster × Session :=
  match (if shared then none else product.validate_cluster_params cluster.product_params) with
  | some e =>
    (Out.err ⟨400, "Bad Request", "Invalid product parameters.",
      [("invalid_product_params", ExtVal.str e)]⟩, s.rollback)
  | none =>
    match region.user_quota, product.flavors, shared with
    | some quota, some _, false =>
      match env.cluster_usage cluster, env.region_user_quota_usage region.id user with
      | Except.ok cu, Except.ok uu =>
        if (exceeded_fields quota uu cu).isEmpty then
          launch_create env region product user now cluster s
        else
          (Out.err ⟨400, "Bad Request", "Quota Exceeded. Please resize cluster",
            [("exceeded_resources",
              ExtVal.strs ((exceeded_fields quota uu cu).map QuotaField.name))]⟩, s)
      | _, _ =>
        (Out.err ⟨500, "Internal Server Error", "Failed to calculate cluster usage.", []⟩,
          s.rollback)
    | _, _, _ => launch_create env region product user now cluster s

/-- create_cluster (cluster.py lines 225-461).  now is the request
time date_now(); the session starts empty. -/
def create_cluster (env : Env) (now : Int) (body : CreateBody) (user : Nat) :
    Out Cluster × Session :=
  match env.regions body.region_id with
  | none => (Out.err ⟨404, "Not Found", "Region does not exist", []⟩, Session.empty)
  | some region =>
  if !(env.user_can_access_region region.id user) then
    (Out.err ⟨403, "Forbidden", "You do not have permissions to use selected region", []⟩,
      Session.empty)
  else if !region.enabled then
    (Out.err ⟨403, "Forbidden", "Selected region is disabled", []⟩, Session.empty)
  else if !(user_can_create_reservation env region user) then
    (Out.err ⟨403, "Forbidden",
      "Reservations are disabled in the selected region, only admin and region owners are allowed to create new reservations.", []⟩,
      Session.empty)
  else if 0 < (env.clusters.filter (fun c =>
      c.name == body.name && !(c.status == ClusterStatus.deleted))).length then
    (Out.err ⟨400, "Bad Request", "Cluster with this name already exists", []⟩, Session.empty)
  else
  match env.products body.product_id with
  | none => (Out.err ⟨404, "Not Found", "Product does not exist", []⟩, Session.empty)
  | some product =>
  if !(region.enabled_products.contains product.id) then
    (Out.err ⟨400, "Bad request", "Product is not enabled in the region", []⟩, Session.empty)
  else if body.shared && !(user_can_create_sharedcluster env user) then
    (Out.err ⟨404, "Forbidden",
      "You do not have necessary permissions to create shared clusters.", []⟩, Session.empty)
  else
  match check_lifespan env region user now
      (if body.shared then some none else body.lifespan_expiration) with
  | Except.error p => (Out.err p, Session.empty)
  | Except.ok lifespan =>
  match check_reservation_create env region user now
      (parse_reservation (if body.shared then some none else body.reservation_expiration)) with
  | Except.error p => (Out.err p, Session.empty)
  | Except.ok _ =>
  match resolve_project env region body.shared user body.project_id Session.empty with
  | Except.error p => (Out.err p, Session.empty)
  | Except.ok (project, s1) =>
  let cluster := mk_cluster env body product project now lifespan
    (parse_reservation (if body.shared then some none else body.reservation_expiration))
  validate_quota_launch env region product body.shared user now cluster
    (s1.add (Row.cluster cluster))

/- ## update_cluster_extra (cluster.py lines 479-616) -/

/-- The outcome of an update together with the final session state. -/
structure UpdateResult where
  result : Out Cluster
  session : Session
deriving DecidableEq

/-- Truthiness of the optional tower_job_id in the status branch
(tower_id is set only for a truthy job id; Python treats 0 as falsy). -/
def tower_truthy : Option Nat → Bool
  | some j => !(j == 0)
  | none => false

/-- The lifespan_expiration branch of update_cluster_extra (lines
499-528).  When the region does not enable lifespans the field is
deleted from cluster_data, after which the unconditional
LifespanChangeEvent construction reads the deleted key and raises
KeyError.  On success it yields the pending assignment (none when the
field was absent) and the session with the appended change event. -/
def update_lifespan_step (env : Env) (region : Region) (cluster : Cluster) (user : Nat)
    (now : Int) (field : Option (Option Int)) (s : Session) :
    Except UpdateResult (Option (Option Int) × Session) :=
  match field with
  | none => Except.ok (none, s)
  | some v =>
    if region.lifespan_enabled then
      if user_can_set_lifespan env region user then
        Except.ok (some v,
          s.add (Row.event (ClusterEvent.lifespanChange cluster.id user now
            cluster.lifespan_expiration v)))
      else
        Except.error ⟨Out.err ⟨403, "Forbidden",
          "Only admin and region owner can set lifespan expiration on clusters in the selected region.", []⟩, s⟩
    else
      Except.error ⟨Out.exn "KeyError: lifespan_expiration", s⟩

/-- The max_allowed computation of the update-side reservation cap
(lines 541-548): base is the current reservation_expiration or now,
plus the region delta, additionally capped by the current
lifespan_expiration when set. -/
def reservation_cap (region : Region) (cluster : Cluster) (now : Int) : Int :=
  let base := match cluster.reservation_expiration with
    | some b => b
    | none => now
  let cap0 := base + region.reservation_expiration_max_delta
  match cluster.lifespan_expiration with
  | some l => min cap0 l
  | none => cap0

/-- The reservation_expiration branch of update_cluster_extra (lines
530-568): null needs the disable-expiration permission; a value is
checked against the cap computed from the current reservation (or
now) plus the region delta, additionally capped by the current
lifespan expiration; a ReservationChangeEvent is appended on the
surviving paths. -/
def update_reservation_step (env : Env) (region : Region) (cluster : Cluster) (user : Nat)
    (now : Int) (field : Option (Option Int)) (s : Session) :
    Except UpdateResult (Option (Option Int) × Session) :=
  match field with
  | none => Except.ok (none, s)
  | some none =>
    if !(user_can_disable_expiration env region user) then
      Except.error ⟨Out.err ⟨403, "Forbidden",
        "Only admin and region owner can set create clusters without expiration in the selected region.", []⟩, s⟩
    else
      Except.ok (some none,
        s.add (Row.event (ClusterEvent.reservationChange cluster.id user now
          cluster.reservation_expiration none)))
  | some (some r) =>
    if region.reservation_expiration_max then
      if r > reservation_cap region cluster now then
        Except.error ⟨Out.err ⟨403, "Forbidden", "Exceeded maximal reservation time.",
          [("reservation_expiration_max", ExtVal.time (reservation_cap region cluster now))]⟩, s⟩
      else
        Except.ok (some (some r),
          s.add (Row.event (ClusterEvent.reservationChange cluster.id user now
            cluster.reservation_expiration (some r))))
    else
      Except.ok (some (some r),
        s.add (Row.event (ClusterEvent.reservationChange cluster.id user now
          cluster.reservation_expiration (some r))))

/-- The status branch of update_cluster_extra (lines 570-593):
admin-only, appends a TowerJobEvent carrying the optional job
correlation id. -/
def update_status_step (env : Env) (region : Region) (cluster : Cluster) (user : Nat)
    (now : Int) (st : Option ClusterStatus) (tower_job_id : Option Nat) (s : Session) :
    Except UpdateResult (Option ClusterStatus × Session) :=
  match st with
  | none => Except.ok (none, s)
  | some v =>
    if !(user_is_cluster_admin env user) then
      Except.error ⟨Out.err ⟨403, "Forbidden",
        "You do not have permissions to change the cluster status.", []⟩, s⟩
    else
      Except.ok (some v,
        s.add (Row.event (ClusterEvent.towerJob cluster.id user now
          (if tower_truthy tower_job_id then some region.tower_id else none)
          tower_job_id v)))

/-- update_cluster_extra (cluster.py lines 479-616).  The post-commit
messaging notification is fire-and-forget and not modelled. -/
def update_cluster_extra (env : Env) (now : Int) (cluster_id : Nat) (body : UpdateBody)
    (user : Nat) : UpdateResult :=
  match env.clusters.find? (fun c => c.id == cluster_id) with
  | none => ⟨Out.err ⟨404, "Not Found", "Cluster does not exist", []⟩, Session.empty⟩
  | some cluster =>
  if !(user_can_access_cluster env cluster user) then
    ⟨Out.err ⟨403, "Forbidden", "You do not have access to this cluster.", []⟩, Session.empty⟩
  else if cluster.status.is_deleted then
    ⟨Out.err ⟨400, "Bad Request", "Cannot update, cluster is in deleted state", []⟩,
      Session.empty⟩
  else if body.has_name then
    ⟨Out.err ⟨400, "Bad Request", "Cluster name field cannot be changed.", []⟩, Session.empty⟩
  else if body.has_region_id then
    ⟨Out.err ⟨400, "Bad Request", "Cluster region_id field cannot be changed.", []⟩,
      Session.empty⟩
  else if body.has_product_id then
    ⟨Out.err ⟨400, "Bad Request", "Cluster product_id field cannot be changed.", []⟩,
      Session.empty⟩
  else if body.has_product_params then
    ⟨Out.err ⟨400, "Bad Request", "Cluster product_params field cannot be changed.", []⟩,
      Session.empty⟩
  else
  match env.regions cluster.region_id with
  | none => ⟨Out.exn "AttributeError: region", Session.empty⟩
  | some region =>
  match update_lifespan_step env region cluster user now body.lifespan_expiration
      Session.empty with
  | Except.error r => r
  | Except.ok (lifespanData, s1) =>
  match update_reservation_step env region cluster user now body.reservation_expiration s1 with
  | Except.error r => r
  | Except.ok (reservationData, s2) =>
  match update_status_step env region cluster user now body.status body.tower_job_id s2 with
  | Except.error r => r
  | Except.ok (statusData, s3) =>
  let cluster2 := { cluster with
    lifespan_expiration := (match lifespanData with
      | some v => v
      | none => cluster.lifespan_expiration)
    reservation_expiration := (match reservationData with
      | some v => v
      | none => cluster.reservation_expiration)
    status := (match statusData with
      | some v => v
      | none => cluster.status) }
  ⟨Out.ok cluster2, s3.commit⟩

/- ## Read operations, delete, reboot (cluster.py lines 464-472, 619-646, 649-700, 747-794) -/

/-- get_cluster (lines 464-472): the access check is bypassed for
shared clusters. -/
def get_cluster (env : Env) (cluster_id : Nat) (user : Nat) : Out Cluster :=
  match env.clusters.find? (fun c => c.id == cluster_id) with
  | none => Out.err ⟨404, "Not Found", "Cluster does not exist", []⟩
  | some cluster =>
    if !(user_can_access_cluster env cluster user) && !(cluster_is_shared env cluster) then
      Out.err ⟨403, "Forbidden", "You do not have access to this cluster.", []⟩
    else Out.ok cluster

/-- The cluster.events relationship: the events of a cluster in
creation order. -/
def cluster_events_of (env : Env) (cluster_id : Nat) : List ClusterEvent :=
  (env.cluster_events.filter (fun r => r.event.cluster_id == cluster_id)).map
    (fun r => r.event)

/-- list_cluster_events (lines 649-660). -/
def list_cluster_events (env : Env) (cluster_id : Nat) (user : Nat) :
    Out (List ClusterEvent) :=
  match env.clusters.find? (fun c => c.id == cluster_id) with
  | none => Out.err ⟨404, "Not Found", "Cluster does not exist", []⟩
  | some cluster =>
    if !(user_can_access_cluster env cluster user) && !(cluster_is_shared env cluster) then
      Out.err ⟨403, "Forbidden", "You do not have access to this cluster.", []⟩
    else Out.ok (cluster_events_of env cluster_id)

/-- get_cluster_event (lines 663-671). -/
def get_cluster_event (env : Env) (event_id : Nat) (user : Nat) : Out ClusterEvent :=
  match env.cluster_events.find? (fun r => r.id == event_id) with
  | none => Out.err ⟨404, "Not Found", "Event does not exist", []⟩
  | some erec =>
    match env.clusters.find? (fun c => c.id == erec.event.cluster_id) with
    | none => Out.exn "AttributeError: cluster"
    | some cluster =>
      if !(user_can_access_cluster env cluster user) && !(cluster_is_shared env cluster) then
        Out.err ⟨403, "Forbidden", "You do not have access to related cluster.", []⟩
      else Out.ok erec.event

/-- get_cluster_event_stdout (lines 674-686): the polymorphic get on
ClusterTowerJobEvent yields nothing for an event row of another
variant; an upstream TowerError is mapped to a 404 Error problem. -/
def get_cluster_event_stdout (env : Env) (event_id : Nat) (user : Nat) : Out String :=
  match env.cluster_events.find? (fun r => r.id == event_id && r.event.is_tower_job) with
  | none => Out.err ⟨404, "Not Found", "Event does not exist", []⟩
  | some erec =>
    match env.clusters.find? (fun c => c.id == erec.event.cluster_id) with
    | none => Out.exn "AttributeError: cluster"
    | some cluster =>
      if !(user_can_access_cluster env cluster user) && !(cluster_is_shared env cluster) then
        Out.err ⟨403, "Forbidden", "You do not have access to related cluster.", []⟩
      else
        match env.tower_job_output erec.id with
        | Except.ok text => Out.ok text
        | Except.error _ => Out.err ⟨404, "Error", "Failed to get output from Tower", []⟩

/-- list_cluster_hosts (lines 689-700). -/
def list_cluster_hosts (env : Env) (cluster_id : Nat) (user : Nat) :
    Out (List ClusterHost) :=
  match env.clusters.find? (fun c => c.id == cluster_id) with
  | none => Out.err ⟨404, "Not Found", "Cluster does not exist", []⟩
  | some cluster =>
    if !(user_can_access_cluster env cluster user) && !(cluster_is_shared env cluster) then
      Out.err ⟨403, "Forbidden", "You do not have access to this cluster.", []⟩
    else Out.ok (env.hosts.filter (fun h => h.cluster_id == cluster_id))

/-- delete_cluster (lines 619-646): no shared bypass on the access
check; deletion is delegated to lab_utils.delete_cluster. -/
def delete_cluster (env : Env) (cluster_id : Nat) (user : Nat) : Out Unit :=
  match env.clusters.find? (fun c => c.id == cluster_id) with
  | none => Out.err ⟨404, "Not Found", "Cluster does not exist", []⟩
  | some cluster =>
    if !(user_can_access_cluster env cluster user) then
      Out.err ⟨403, "Forbidden", "You do not have access to this cluster.", []⟩
    else if cluster.status.is_deleting then
      Out.err ⟨400, "Bad Request", "Cluster is already in deleting state", []⟩
    else if cluster.status.is_deleted then
      Out.err ⟨400, "Bad Request", "Cluster was already deleted", []⟩
    else if cluster.status.is_creating then
      Out.err ⟨400, "Bad Request",
        "Cluster is in creating state. Before deleting, the cluster must be in the Active state or in any of failed states.", []⟩
    else if env.trigger_delete_fails cluster.id then
      Out.err ⟨500, "Internal Server Error", "Failed to trigger cluster deletion.", []⟩
    else Out.ok ()

/-- The hosts_to_reboot dict of reboot_hosts (lines 757-775), as the
selected host rows; the dict keyed by fqdn is realised by
fqdn_lookup. -/
def select_hosts (env : Env) (cluster : Cluster) (sel : RebootTarget) : List ClusterHost :=
  match sel with
  | RebootTarget.all => env.hosts.filter (fun h => h.cluster_id == cluster.id)
  | RebootTarget.sel l =>
    env.hosts.filter (fun h => h.cluster_id == cluster.id &&
      ((l.filterMap (fun i => i.id)).contains h.id ||
        (l.filterMap (fun i => i.fqdn)).contains h.fqdn))

/-- Lookup in the fqdn-keyed dict built by insertion over the selected
hosts: on duplicate fqdns the later insertion wins. -/
def fqdn_lookup (hs : List ClusterHost) (f : String) : Option ClusterHost :=
  hs.reverse.find? (fun h => h.fqdn == f)

/-- The reboot loop of reboot_hosts (lines 779-792): walk the cloud
inventory, reboot every server whose hostname is a selected fqdn and
collect it; a reboot failure aborts the whole request. -/
def reboot_loop (env : Env) (target : List ClusterHost) (servers : List OsServer)
    (acc : List ClusterHost) : Except Unit (List ClusterHost) :=
  match servers with
  | [] => Except.ok acc
  | srv :: rest =>
    match fqdn_lookup target srv.hostname with
    | some h =>
      if env.reboot_fails srv.hostname then Except.error ()
      else reboot_loop env target rest (acc ++ [h])
    | none => reboot_loop env target rest acc

/-- reboot_hosts (lines 747-794): returns the id and fqdn of each host
actually rebooted; servers absent from the inventory are skipped. -/
def reboot_hosts (env : Env) (cluster_id : Nat) (body : RebootBody) (user : Nat) :
    Out (List (Nat × String)) :=
  match env.clusters.find? (fun c => c.id == cluster_id) with
  | none => Out.err ⟨404, "Not Found", "Cluster does not exist", []⟩
  | some cluster =>
  if !(user_can_access_cluster env cluster user) then
    Out.err ⟨403, "Forbidden", "You do not have access to this cluster.", []⟩
  else
  match env.list_servers cluster.project_id with
  | Except.error _ => Out.err ⟨500, "Server Error", "Failed to reboot nodes", []⟩
  | Except.ok servers =>
    match reboot_loop env (select_hosts env cluster body.hosts) servers [] with
    | Except.error _ => Out.err ⟨500, "Server Error", "Failed to reboot nodes", []⟩
    | Except.ok rebooted => Out.ok (rebooted.map (fun h => (h.id, h.fqdn)))

/- ## Concrete fixtures used by witnesses and counterexamples -/

/-- A plain user: not admin, no roles, no groups. -/
def uPlain : UserInfo := ⟨"alice", false, false, [], false⟩

/-- A member of the shared-cluster group. -/
def uShared : UserInfo := ⟨"bob", false, false, [99], true⟩

/-- A global admin. -/
def uAdmin : UserInfo := ⟨"root", true, false, [], false⟩

/-- Region 5: enabled, open reservations, lifespans enabled with a 7
unit delta, no reservation maximum, no quota. -/
def baseRegion : Region := ⟨5, true, true, 50, true, 7, false, 30, 77, 3, none, [10]⟩

def baseProduct : Product := ⟨10, "generic", [("size", 1)], none, "create-template", fun _ => none⟩

def baseProject : Project := ⟨20, 77, "team-project", 1, none⟩

def baseEnv : Env :=
  { regions := fun rid => if rid == 5 then some baseRegion else none
    products := fun pid => if pid == 10 then some baseProduct else none
    clusters := []
    projects := [baseProject]
    users := fun uid => if uid == 2 then uShared else if uid == 9 then uAdmin else uPlain
    sharedcluster_group_id := some 99
    user_can_access_region := fun _ _ => true
    next_project_id := 100
    next_cluster_id := 200
    cluster_usage := fun _ => Except.ok (fun _ => 0)
    region_user_quota_usage := fun _ _ => Except.ok (fun _ => 0)
    tower_template_get := fun _ => Except.ok ⟨8, "create-template"⟩
    tower_template_launch := fun _ => Except.ok ⟨55⟩
    cluster_events := []
    hosts := []
    list_servers := fun _ => Except.ok []
    reboot_fails := fun _ => false
    tower_job_output := fun _ => Except.ok "tower output"
    trigger_delete_fails := fun _ => false }

/- ## Claim C1 -/

/-- Create payload of the C1 counterexample: omitted lifespan (so the
region default created + 7 applies), reservation_expiration 100, an
explicit valid project. -/
def c1_body : CreateBody := ⟨"web", 5, 10, [], false, none, some (some 100), some 20, none⟩

/-- Claim C1, counterexample: a create_cluster call in a region whose
reservation_expiration_max flag is off succeeds and commits a cluster
whose reservation_expiration (100) exceeds its lifespan_expiration
(7), so the invariant does not hold after every successful
create_cluster. -/
theorem C1_counterexample :
    ((create_cluster baseEnv 0 c1_body 1).1.getOk?.map
      (fun c => (c.reservation_expiration, c.lifespan_expiration))) = some (some 100, some 7)
    ∧ (create_cluster baseEnv 0 c1_body 1).2.committed = true
    ∧ ¬((100 : Int) ≤ 7) := by
  exact ⟨by decide, by decide, by decide⟩

/-- Claim C1 (amended): in update_cluster_extra, when the region
enforces reservation_expiration_max, the cluster has a
lifespan_expiration, and the payload sets a non-null
reservation_expiration without touching lifespan_expiration, a
successful update yields reservation_expiration <=
lifespan_expiration; create_cluster and updates in regions without
the reservation_expiration_max flag do not enforce the invariant. -/
theorem update_lifespan_step_err (env : Env) (region : Region) (cluster : Cluster)
    (user : Nat) (now : Int) (field : Option (Option Int)) (s : Session) (u : UpdateResult)
    (h : update_lifespan_step env region cluster user now field s = Except.error u) :
    ∀ c, u.result ≠ Out.ok c := by
  intro c hc
  unfold update_lifespan_step at h
  (repeat' split at h)
  all_goals try simp_all
  all_goals (subst h; simp at hc)

theorem update_reservation_step_err (env : Env) (region : Region) (cluster : Cluster)
    (user : Nat) (now : Int) (field : Option (Option Int)) (s : Session) (u : UpdateResult)
    (h : update_reservation_step env region cluster user now field s = Except.error u) :
    ∀ c, u.result ≠ Out.ok c := by
  intro c hc
  unfold update_reservation_step at h
  (repeat' split at h)
  all_goals try simp_all
  all_goals (subst h; simp at hc)

theorem update_status_step_err (env : Env) (region : Region) (cluster : Cluster)
    (user : Nat) (now : Int) (st : Option ClusterStatus) (tj : Option Nat) (s : Session)
    (u : UpdateResult)
    (h : update_status_step env region cluster user now st tj s = Except.error u) :
    ∀ c, u.result ≠ Out.ok c := by
  intro c hc
  unfold update_status_step at h
  (repeat' split at h)
  all_goals try simp_all
  all_goals (subst h; simp at hc)

theorem update_reservation_step_ok_val (env : Env) (region : Region) (cluster : Cluster)
    (user : Nat) (now : Int) (r : Int) (s : Session) (rd : Option (Option Int)) (s2 : Session)
    (h : update_reservation_step env region cluster user now (some (some r)) s =
      Except.ok (rd, s2)) :
    rd = some (some r) := by
  unfold update_reservation_step at h
  (repeat' split at h)
  all_goals simp_all

theorem update_reservation_step_ok_cap (env : Env) (region : Region) (cluster : Cluster)
    (user : Nat) (now : Int) (r l : Int) (s : Session) (rd : Option (Option Int)) (s2 : Session)
    (hmax : region.reservation_expiration_max = true)
    (hl : cluster.lifespan_expiration = some l)
    (h : update_reservation_step env region cluster user now (some (some r)) s =
      Except.ok (rd, s2)) :
    r ≤ l := by
  unfold update_reservation_step at h
  simp only [hmax, if_true] at h
  split at h
  · simp at h
  next hc =>
    refine le_trans (not_lt.mp hc) ?_
    unfold reservation_cap
    rw [hl]
    exact min_le_right _ _

theorem C1_reservation_cap_update (env : Env) (now : Int) (cluster_id : Nat)
    (body : UpdateBody) (user : Nat) (cluster : Cluster) (region : Region) (r l : Int)
    (c : Cluster)
    (hfind : env.clusters.find? (fun c0 => c0.id == cluster_id) = some cluster)
    (hregion : env.regions cluster.region_id = some region)
    (hlife : body.lifespan_expiration = none)
    (hres : body.reservation_expiration = some (some r))
    (hmax : region.reservation_expiration_max = true)
    (hl : cluster.lifespan_expiration = some l)
    (h : (update_cluster_extra env now cluster_id body user).result = Out.ok c) :
    c.reservation_expiration = some r ∧ c.lifespan_expiration = some l ∧ r ≤ l := by
  unfold update_cluster_extra at h
  split at h
  · simp at h
  next cluster2 heq =>
  rw [hfind] at heq
  injection heq with heq
  subst heq
  split at h
  · simp at h
  split at h
  · simp at h
  split at h
  · simp at h
  split at h
  · simp at h
  split at h
  · simp at h
  split at h
  · simp at h
  split at h
  · simp at h
  next region2 heq2 =>
  rw [hregion] at heq2
  injection heq2 with heq2
  subst heq2
  rw [hlife, hres] at h
  simp only [update_lifespan_step] at h
  split at h
  next u hu => exact absurd h (update_reservation_step_err _ _ _ _ _ _ _ _ hu c)
  next rd s2 hok =>
  split at h
  next u hu => exact absurd h (update_status_step_err _ _ _ _ _ _ _ _ _ hu c)
  next sd s3 hok2 =>
  have hv := update_reservation_step_ok_val env region cluster user now r _ rd s2 hok
  subst hv
  injection h with h
  subst h
  exact ⟨rfl, hl,
    update_reservation_step_ok_cap env region cluster user now r l _ _ _ hmax hl hok⟩

/-- Witness for C1_reservation_cap_update: a concrete in-cap update. -/
def c1u_region : Region := { baseRegion with
  id := 6
  reservation_expiration_max := true }

def c1u_cluster : Cluster :=
  ⟨300, "upd", 6, 10, 20, 1, none, ClusterStatus.active, 0, some 50, some 10, []⟩

def c1u_env : Env := { baseEnv with
  regions := fun rid => if rid == 6 then some c1u_region else none
  clusters := [c1u_cluster] }

def c1u_body : UpdateBody := ⟨false, false, false, false, none, some (some 40), none, none⟩

theorem C1_witness :
    ((update_cluster_extra c1u_env 0 300 c1u_body 1).result.getOk?.map
      (fun c => c.reservation_expiration)) = some (some 40)
    ∧ (40 : Int) ≤ 50 := by
  have h : (update_cluster_extra c1u_env 0 300 c1u_body 1).result =
      Out.ok { c1u_cluster with reservation_expiration := some 40 } := by decide
  have h2 := C1_reservation_cap_update c1u_env 0 300 c1u_body 1 c1u_cluster c1u_region
    40 50 { c1u_cluster with reservation_expiration := some 40 }
    (by decide) (by decide) rfl rfl (by decide) (by decide) h
  exact ⟨by rw [h]; rfl, h2.2.2⟩

/- ## Claim C5 -/

/-- Region 8: lifespans disabled. -/
def c5_region : Region := { baseRegion with
  id := 8
  lifespan_enabled := false }

def c5_cluster : Cluster :=
  ⟨400, "old", 8, 10, 20, 1, none, ClusterStatus.active, 0, none, none, []⟩

def c5_env : Env := { baseEnv with
  regions := fun rid => if rid == 8 then some c5_region else
    if rid == 5 then some baseRegion else none
  clusters := [c5_cluster] }

/-- Payload explicitly including lifespan_expiration. -/
def c5_body : UpdateBody := ⟨false, false, false, false, some (some 99), none, none, none⟩

/-- Claim C5: the claim says that an update_cluster_extra call on an
accessible non-deleted cluster whose payload includes
lifespan_expiration returns normally and appends exactly one
LifespanChangeEvent regardless of whether the region has lifespans
enabled.  On a region with lifespan_enabled = false the code deletes
the field from cluster_data and then unconditionally reads the deleted
key while building the event, so the call raises an unhandled KeyError
and appends nothing: the code contradicts the specified intent. -/
theorem C5_keyerror_result :
    update_cluster_extra c5_env 0 400 c5_body 1 =
      ⟨Out.exn "KeyError: lifespan_expiration", Session.empty⟩ := by
  decide

/- ## Claim C7 -/

/-- Claim C7: every update_cluster_extra call targeting a cluster in
deleted status is rejected with a Bad Request problem, no event row is
pending, nothing was rolled back or committed, so the cluster record
is unchanged and no ClusterEvent of any variant is appended. -/
theorem C7_deleted_update_rejected (env : Env) (now : Int) (cluster_id : Nat)
    (body : UpdateBody) (user : Nat) (cluster : Cluster)
    (hfind : env.clusters.find? (fun c0 => c0.id == cluster_id) = some cluster)
    (haccess : user_can_access_cluster env cluster user = true)
    (hdel : cluster.status.is_deleted = true) :
    update_cluster_extra env now cluster_id body user =
      ⟨Out.err ⟨400, "Bad Request", "Cannot update, cluster is in deleted state", []⟩,
        Session.empty⟩ := by
  unfold update_cluster_extra
  rw [hfind]
  simp [haccess, hdel]

def c7_cluster : Cluster :=
  ⟨500, "dead", 5, 10, 20, 1, none, ClusterStatus.deleted, 0, none, none, []⟩

def c7_env : Env := { baseEnv with clusters := [c7_cluster] }

def c7_body : UpdateBody := ⟨false, false, false, false, none, some (some 3), none, none⟩

theorem C7_witness :
    update_cluster_extra c7_env 0 500 c7_body 1 =
      ⟨Out.err ⟨400, "Bad Request", "Cannot update, cluster is in deleted state", []⟩,
        Session.empty⟩ :=
  C7_deleted_update_rejected c7_env 0 500 c7_body 1 c7_cluster (by decide) (by decide)
    (by decide)

/- ## Claim C4 -/

/-- Region 5 variant that enforces a 5 unit reservation maximum. -/
def c4_region : Region := { baseRegion with
  reservation_expiration_max := true
  reservation_expiration_max_delta := 5 }

def c4_env : Env := { baseEnv with
  regions := fun rid => if rid == 5 then some c4_region else none }

def c4_body : CreateBody := ⟨"web4", 5, 10, [], false, none, some (some 10), some 20, none⟩

/-- Claim C4, counterexample: the rejection of a reservation_expiration
beyond the enforced maximum is emitted as status 403 with title
Forbidden (carrying the computed maximum), not as an error of the
BadRequest kind as the claim states. -/
theorem C4_counterexample :
    (create_cluster c4_env 0 c4_body 1).1 =
      Out.err ⟨403, "Forbidden", "Exceeded maximal reservation time.",
        [("reservation_expiration_max", ExtVal.time 5)]⟩
    ∧ "Forbidden" ≠ "Bad Request" := by
  exact ⟨by decide, by decide⟩

/-- Claim C4 (amended): in every create_cluster or update_cluster_extra
call in a region enforcing a maximum reservation window, a requested
reservation_expiration strictly greater than the computed max_allowed
is rejected with an error of the Forbidden kind (HTTP 403) whose
extension data carries the computed max_allowed value under the
reservation_expiration_max key. -/
theorem C4_reservation_max_rejection :
    (∀ (env : Env) (now : Int) (body : CreateBody) (user : Nat) (region : Region)
        (product : Product) (lv : Option Int) (r : Int),
      env.regions body.region_id = some region →
      env.user_can_access_region region.id user = true →
      region.enabled = true →
      user_can_create_reservation env region user = true →
      env.clusters.filter (fun c =>
        c.name == body.name && !(c.status == ClusterStatus.deleted)) = [] →
      env.products body.product_id = some product →
      region.enabled_products.contains product.id = true →
      body.shared = false →
      check_lifespan env region user now body.lifespan_expiration = Except.ok lv →
      body.reservation_expiration = some (some r) →
      region.reservation_expiration_max = true →
      r > now + region.reservation_expiration_max_delta →
      (create_cluster env now body user).1 =
        Out.err ⟨403, "Forbidden", "Exceeded maximal reservation time.",
          [("reservation_expiration_max",
            ExtVal.time (now + region.reservation_expiration_max_delta))]⟩)
    ∧
    (∀ (env : Env) (now : Int) (cluster_id : Nat) (body : UpdateBody) (user : Nat)
        (cluster : Cluster) (region : Region) (r : Int),
      env.clusters.find? (fun c0 => c0.id == cluster_id) = some cluster →
      env.regions cluster.region_id = some region →
      body.lifespan_expiration = none →
      body.reservation_expiration = some (some r) →
      region.reservation_expiration_max = true →
      r > reservation_cap region cluster now →
      user_can_access_cluster env cluster user = true →
      cluster.status.is_deleted = false →
      body.has_name = false →
      body.has_region_id = false →
      body.has_product_id = false →
      body.has_product_params = false →
      (update_cluster_extra env now cluster_id body user).result =
        Out.err ⟨403, "Forbidden", "Exceeded maximal reservation time.",
          [("reservation_expiration_max", ExtVal.time (reservation_cap region cluster now))]⟩) := by
  constructor
  · intro env now body user region product lv r hregion haccess henabled hreserve hname
      hproduct hpenabled hshared hlifespan hres hmax hover
    unfold create_cluster
    rw [hregion]
    simp only [haccess, henabled, hreserve, hname, hproduct, hpenabled, hshared, hres,
      hlifespan, Bool.not_true, Bool.false_and, if_false, List.length_nil,
      lt_self_iff_false, Bool.and_self]
    simp only [parse_reservation, check_reservation_create, hmax, if_true]
    simp [hover]
    rw [hlifespan]
  · intro env now cluster_id body user cluster region r hfind hregion hlife hres hmax
      hover haccess hdel hn hr hp hpp
    unfold update_cluster_extra
    rw [hfind]
    simp only [haccess, hdel, hn, hr, hp, hpp, Bool.not_true, if_false, hregion, hlife]
    simp only [update_lifespan_step, update_reservation_step, hres, hmax, if_true]
    simp [hover]

def c4u_cluster : Cluster :=
  ⟨310, "uppd", 5, 10, 20, 1, none, ClusterStatus.active, 0, some 3, none, []⟩

def c4u_env : Env := { baseEnv with
  regions := fun rid => if rid == 5 then some c4_region else none
  clusters := [c4u_cluster] }

def c4u_body : UpdateBody := ⟨false, false, false, false, none, some (some 10), none, none⟩

theorem C4_witness :
    (create_cluster c4_env 0 c4_body 1).1 =
      Out.err ⟨403, "Forbidden", "Exceeded maximal reservation time.",
        [("reservation_expiration_max", ExtVal.time 5)]⟩
    ∧ (update_cluster_extra c4u_env 0 310 c4u_body 1).result =
      Out.err ⟨403, "Forbidden", "Exceeded maximal reservation time.",
        [("reservation_expiration_max", ExtVal.time 3)]⟩ := by
  constructor
  · have h := C4_reservation_max_rejection.1 c4_env 0 c4_body 1 c4_region baseProduct
      (some 7) 10 rfl rfl rfl (by decide) rfl rfl (by decide) rfl rfl rfl
      (by decide) (by decide)
    simpa using h
  · have h := C4_reservation_max_rejection.2 c4u_env 0 310 c4u_body 1 c4u_cluster
      c4_region 10 (by decide) (by decide) rfl rfl (by decide) (by decide) (by decide)
      (by decide) rfl rfl rfl rfl
    simpa using h

/- ## Characterization of successful creates -/

theorem launch_create_ok (env : Env) (region : Region) (product : Product) (user : Nat)
    (now : Int) (cluster : Cluster) (s : Session) (c : Cluster)
    (h : (launch_create env region product user now cluster s).1 = Out.ok c) :
    c = { cluster with status := ClusterStatus.queued } := by
  unfold launch_create at h
  (repeat' split at h) <;> simp_all

theorem validate_quota_launch_ok (env : Env) (region : Region) (product : Product)
    (shared : Bool) (user : Nat) (now : Int) (cluster : Cluster) (s : Session) (c : Cluster)
    (h : (validate_quota_launch env region product shared user now cluster s).1 = Out.ok c) :
    c = { cluster with status := ClusterStatus.queued } := by
  unfold validate_quota_launch at h
  (repeat' split at h)
  all_goals try (exact launch_create_ok _ _ _ _ _ _ _ _ h)
  all_goals simp_all

/-- Every successful create_cluster call resolved its region and
product, ran the lifespan policy on the field state after shared
handling, and returned the inserted cluster: its lifespan_expiration
is the policy result, its reservation_expiration is the parsed
reservation field after shared handling, and its created timestamp is
the request time. -/
theorem create_ok_fields (env : Env) (now : Int) (body : CreateBody) (user : Nat)
    (c : Cluster) (h : (create_cluster env now body user).1 = Out.ok c) :
    ∃ region product project lv,
      env.regions body.region_id = some region ∧
      env.products body.product_id = some product ∧
      check_lifespan env region user now
        (if body.shared then some none else body.lifespan_expiration) = Except.ok lv ∧
      c.lifespan_expiration = lv ∧
      c.reservation_expiration =
        parse_reservation (if body.shared then some none else body.reservation_expiration) ∧
      c.created = now ∧
      c = { mk_cluster env body product project now lv
        (parse_reservation (if body.shared then some none else body.reservation_expiration))
        with status := ClusterStatus.queued } := by
  unfold create_cluster at h
  generalize hLF : (if body.shared then some none else body.lifespan_expiration) = lf at h ⊢
  generalize hRF : (if body.shared then some none else body.reservation_expiration) = rf at h ⊢
  (repeat' split at h)
  all_goals try (simp at h)
  all_goals (
    have hc := validate_quota_launch_ok _ _ _ _ _ _ _ _ _ h
    subst hc
    refine ⟨?_, ?_, ?_, ?_, ?_, ?_, ?_, ?_, ?_, ?_, ?_⟩
    case _ => assumption
    case _ => assumption
    case _ => assumption
    case _ => assumption
    case _ => assumption
    case _ => assumption
    case _ => assumption
    case _ => simp [mk_cluster]
    case _ => simp [mk_cluster]
    case _ => simp [mk_cluster]
    case _ => rfl)

/- ## Claim C6 -/

/-- Shared create with lifespan_expiration omitted from the payload. -/
def c6_body : CreateBody := ⟨"web6", 5, 10, [], true, none, none, none, none⟩

/-- Claim C6, counterexample: a successful shared create in a region
with lifespan_enabled = true whose payload omits lifespan_expiration
yields a null lifespan_expiration, not created + lifespan_delta (the
shared branch forces the field to null before the lifespan policy
runs), so the second half of the claim fails as stated. -/
theorem C6_counterexample :
    baseEnv.regions c6_body.region_id = some baseRegion
    ∧ baseRegion.lifespan_enabled = true
    ∧ c6_body.lifespan_expiration = none
    ∧ ((create_cluster baseEnv 0 c6_body 2).1.getOk?.map
        (fun c => c.lifespan_expiration)) = some none
    ∧ (some (0 + baseRegion.lifespan_delta) : Option Int) ≠ none := by
  exact ⟨rfl, by decide, rfl, by decide, by decide⟩

/-- Claim C6 (amended): for every successful create_cluster call, if
the region has lifespan_enabled = false the created cluster has a
null lifespan_expiration even if the payload supplied a value, and if
the region has lifespan_enabled = true while the payload omits the
lifespan_expiration field and does not request a shared cluster, the
created cluster has lifespan_expiration = created +
region.lifespan_delta. -/
theorem C6_lifespan_defaults (env : Env) (now : Int) (body : CreateBody) (user : Nat)
    (c : Cluster) (region : Region)
    (hregion : env.regions body.region_id = some region)
    (h : (create_cluster env now body user).1 = Out.ok c) :
    (region.lifespan_enabled = false → c.lifespan_expiration = none)
    ∧ (region.lifespan_enabled = true → body.lifespan_expiration = none →
        body.shared = false → c.lifespan_expiration = some (now + region.lifespan_delta)) := by
  obtain ⟨region2, product, project, lv, h1, h2, h3, h4, h5, h6, h7⟩ :=
    create_ok_fields env now body user c h
  rw [hregion] at h1
  injection h1 with h1
  subst h1
  constructor
  · intro hdis
    rw [h4]
    unfold check_lifespan at h3
    rw [hdis] at h3
    simp at h3
    exact h3.symm
  · intro hen hlife hshared
    rw [h4]
    unfold check_lifespan at h3
    rw [hen, hshared, hlife] at h3
    simp at h3
    exact h3.symm

def c6w_body : CreateBody := ⟨"web6w", 5, 10, [], false, none, none, some 20, none⟩

/-- The cluster a plain non-shared create of c6w_body produces. -/
def c6w_cluster : Cluster :=
  ⟨200, "web6w", 5, 10, 20, 1, none, ClusterStatus.queued, 0, some 7, none, [("size", 1)]⟩

theorem C6_witness :
    (create_cluster baseEnv 0 c6w_body 1).1 = Out.ok c6w_cluster
    ∧ c6w_cluster.lifespan_expiration = some (0 + baseRegion.lifespan_delta) := by
  have h : (create_cluster baseEnv 0 c6w_body 1).1 = Out.ok c6w_cluster := by decide
  have h2 := (C6_lifespan_defaults baseEnv 0 c6w_body 1 c6w_cluster baseRegion rfl h).2
    (by decide) rfl rfl
  exact ⟨h, h2⟩

/- ## Claim C8 -/

/-- Claim C8: a create_cluster call with shared = true by a principal
without the shared-cluster permission is rejected with an error whose
machine-readable kind (title) is Forbidden (the HTTP status code of
this particular problem response is 404, an inconsistency in the
code, but the kind carried by the response is Forbidden), and every
successful shared create yields a cluster with both
lifespan_expiration and reservation_expiration null. -/
theorem C8_shared_create :
    (∀ (env : Env) (now : Int) (body : CreateBody) (user : Nat) (region : Region)
        (product : Product),
      env.regions body.region_id = some region →
      env.user_can_access_region region.id user = true →
      region.enabled = true →
      user_can_create_reservation env region user = true →
      env.clusters.filter (fun c =>
        c.name == body.name && !(c.status == ClusterStatus.deleted)) = [] →
      env.products body.product_id = some product →
      region.enabled_products.contains product.id = true →
      body.shared = true →
      user_can_create_sharedcluster env user = false →
      (create_cluster env now body user).1 =
        Out.err ⟨404, "Forbidden",
          "You do not have necessary permissions to create shared clusters.", []⟩)
    ∧ (∀ (env : Env) (now : Int) (body : CreateBody) (user : Nat) (c : Cluster),
      body.shared = true →
      (create_cluster env now body user).1 = Out.ok c →
      c.lifespan_expiration = none ∧ c.reservation_expiration = none) := by
  constructor
  · intro env now body user region product hregion haccess henabled hreserve hname
      hproduct hpenabled hshared hperm
    unfold create_cluster
    rw [hregion]
    simp only [haccess, henabled, hreserve, hname, hproduct, hpenabled, hshared, hperm]
    simp
  · intro env now body user c hshared h
    obtain ⟨region2, product, project, lv, h1, h2, h3, h4, h5, h6, h7⟩ :=
      create_ok_fields env now body user c h
    rw [hshared] at h3 h5
    constructor
    · rw [h4]
      unfold check_lifespan at h3
      (repeat' split at h3) <;> simp_all
    · rw [h5]
      rfl

/-- The cluster the successful shared create of c6_body by the shared
group member produces: both expirations null. -/
def c8_cluster : Cluster :=
  ⟨200, "web6", 5, 10, 100, 2, none, ClusterStatus.queued, 0, none, none, [("size", 1)]⟩

theorem C8_witness :
    (create_cluster baseEnv 0 c6_body 1).1 =
      Out.err ⟨404, "Forbidden",
        "You do not have necessary permissions to create shared clusters.", []⟩
    ∧ c8_cluster.lifespan_expiration = none
    ∧ c8_cluster.reservation_expiration = none := by
  have ha := C8_shared_create.1 baseEnv 0 c6_body 1 baseRegion baseProduct rfl rfl rfl
    (by decide) rfl rfl (by decide) rfl (by decide)
  have hok : (create_cluster baseEnv 0 c6_body 2).1 = Out.ok c8_cluster := by decide
  have hb := C8_shared_create.2 baseEnv 0 c6_body 2 c8_cluster rfl hok
  exact ⟨ha, hb.1, hb.2⟩

/- ## Claim C3 -/

theorem QuotaField.name_inj (a b : QuotaField) (h : a.name = b.name) : a = b := by
  cases a <;> cases b <;> first | rfl | (exact absurd h (by decide))

theorem QuotaField.mem_all (a : QuotaField) : a ∈ QuotaField.all := by
  cases a <;> decide

/-- Claim C3: a non-shared create in a region with a non-null quota
whose product defines flavors, once its projected usage and the
current aggregate usage are computed, is rejected exactly when some
quota field with a non-null limit is pushed over that limit, and the
quota-exceeded error lists the names of all exceeded fields: a field
name appears in the extension data if and only if that field has a
non-null limit which usage + new exceeds. -/
theorem C3_quota_lists_all_exceeded (env : Env) (now : Int) (body : CreateBody) (user : Nat)
    (region : Region) (product : Product) (lv : Option Int) (project : Project) (s1 : Session)
    (quota : Quota) (fl : List (String × Nat)) (cu uu : QuotaField → Nat)
    (hregion : env.regions body.region_id = some region)
    (haccess : env.user_can_access_region region.id user = true)
    (henabled : region.enabled = true)
    (hreserve : user_can_create_reservation env region user = true)
    (hname : env.clusters.filter (fun c =>
      c.name == body.name && !(c.status == ClusterStatus.deleted)) = [])
    (hproduct : env.products body.product_id = some product)
    (hpenabled : region.enabled_products.contains product.id = true)
    (hshared : body.shared = false)
    (hlifespan : check_lifespan env region user now body.lifespan_expiration = Except.ok lv)
    (hrescheck : check_reservation_create env region user now
      (parse_reservation body.reservation_expiration) = Except.ok ())
    (hproj : resolve_project env region body.shared user body.project_id Session.empty =
      Except.ok (project, s1))
    (hvalid : product.validate_cluster_params
      (mk_cluster env body product project now lv
        (parse_reservation body.reservation_expiration)).product_params = none)
    (hquota : region.user_quota = some quota)
    (hflavors : product.flavors = some fl)
    (hcu : env.cluster_usage (mk_cluster env body product project now lv
      (parse_reservation body.reservation_expiration)) = Except.ok cu)
    (huu : env.region_user_quota_usage region.id user = Except.ok uu)
    (hexceeded : exceeded_fields quota uu cu ≠ []) :
    (create_cluster env now body user).1 =
      Out.err ⟨400, "Bad Request", "Quota Exceeded. Please resize cluster",
        [("exceeded_resources",
          ExtVal.strs ((exceeded_fields quota uu cu).map QuotaField.name))]⟩
    ∧ ∀ k : QuotaField,
        (QuotaField.name k ∈ (exceeded_fields quota uu cu).map QuotaField.name
          ↔ ∃ lim, quota.get k = some lim ∧ uu k + cu k > lim) := by
  constructor
  · unfold create_cluster
    rw [hregion]
    simp only [haccess, henabled, hreserve, hname, hproduct, hpenabled, hshared,
      Bool.not_true, Bool.false_and, if_false, List.length_nil, lt_self_iff_false,
      Bool.false_eq_true]
    rw [hshared] at hproj
    simp only [hlifespan, hrescheck, hproj]
    unfold validate_quota_launch
    simp only [Bool.false_eq_true, if_false, hvalid]
    simp only [hquota, hflavors, hcu, huu]
    simp [hexceeded]
  · intro k
    constructor
    · intro hk
      obtain ⟨b, hb, hbk⟩ := List.mem_map.mp hk
      have hbk2 := QuotaField.name_inj b k hbk
      subst hbk2
      have hf := List.of_mem_filter hb
      revert hf
      cases hq : quota.get b
      · simp
      · intro hf
        exact ⟨_, rfl, by simpa using hf⟩
    · intro hk
      obtain ⟨lim, hlim, hgt⟩ := hk
      refine List.mem_map.mpr ⟨k, ?_, rfl⟩
      refine List.mem_filter.mpr ⟨QuotaField.mem_all k, ?_⟩
      rw [hlim]
      simpa using hgt

def c3_quota : Quota := ⟨some 1, some 2, none, none⟩

def c3_region : Region := { baseRegion with user_quota := some c3_quota }

def c3_product : Product := { baseProduct with flavors := some [("small", 1)] }

def c3_env : Env := { baseEnv with
  regions := fun rid => if rid == 5 then some c3_region else none
  products := fun pid => if pid == 10 then some c3_product else none
  cluster_usage := fun _ => Except.ok (fun _ => 2)
  region_user_quota_usage := fun _ _ => Except.ok (fun _ => 1) }

def c3_body : CreateBody := ⟨"web3", 5, 10, [], false, none, none, some 20, none⟩

theorem C3_witness :
    (create_cluster c3_env 0 c3_body 1).1 =
      Out.err ⟨400, "Bad Request", "Quota Exceeded. Please resize cluster",
        [("exceeded_resources", ExtVal.strs ["num_vcpus", "ram_mb"])]⟩
    ∧ "num_vcpus" ∈ (exceeded_fields c3_quota (fun _ => 1) (fun _ => 2)).map QuotaField.name
    ∧ "ram_mb" ∈ (exceeded_fields c3_quota (fun _ => 1) (fun _ => 2)).map QuotaField.name := by
  have h := C3_quota_lists_all_exceeded c3_env 0 c3_body 1 c3_region c3_product (some 7)
    baseProject Session.empty c3_quota [("small", 1)] (fun _ => 2) (fun _ => 1)
    rfl rfl rfl (by decide) rfl rfl (by decide) rfl rfl rfl rfl rfl rfl rfl rfl rfl
    (by decide)
  refine ⟨h.1.trans (by decide), ?_, ?_⟩
  · exact (h.2 QuotaField.num_vcpus).mpr ⟨1, rfl, by decide⟩
  · exact (h.2 QuotaField.ram_mb).mpr ⟨2, rfl, by decide⟩

/- ## Claim C2 -/

def c2_region : Region := { baseRegion with user_quota := some ⟨some 1, none, none, none⟩ }

def c2_product : Product := { baseProduct with flavors := some [("flavor", 1)] }

def c2_env : Env := { baseEnv with
  regions := fun rid => if rid == 5 then some c2_region else none
  products := fun pid => if pid == 10 then some c2_product else none
  cluster_usage := fun _ => Except.ok (fun _ => 1)
  region_user_quota_usage := fun _ _ => Except.ok (fun _ => 1) }

def c2_body : CreateBody := ⟨"web2", 5, 10, [], false, none, none, some 20, none⟩

/-- Claim C2, counterexample: a create_cluster call that fails at the
quota-exceeded rejection, after the cluster row was inserted and
flushed, returns the error with the transaction left open: the
session was not rolled back and still holds the pending cluster row.
The rollback-in-full-before-returning property does not hold for this
failure. -/
theorem C2_counterexample :
    (create_cluster c2_env 0 c2_body 1).1 =
      Out.err ⟨400, "Bad Request", "Quota Exceeded. Please resize cluster",
        [("exceeded_resources", ExtVal.strs ["num_vcpus"])]⟩
    ∧ (create_cluster c2_env 0 c2_body 1).2.rolled_back = false
    ∧ (create_cluster c2_env 0 c2_body 1).2.pending ≠ []
    ∧ (create_cluster c2_env 0 c2_body 1).2.committed = false := by
  exact ⟨by decide, by decide, by decide, by decide⟩

theorem launch_create_err (env : Env) (region : Region) (product : Product) (user : Nat)
    (now : Int) (cluster : Cluster) (s : Session) (res : Out Cluster) (ses : Session)
    (p : Problem)
    (hc : s.committed = false)
    (hR : launch_create env region product user now cluster s = (res, ses))
    (hres : res = Out.err p) :
    ses.committed = false ∧ ses.rolled_back = true := by
  unfold launch_create at hR
  (repeat' split at hR)
  all_goals (injection hR with h1 h2; subst h1; subst h2)
  · exact ⟨by simp [hc], rfl⟩
  · exact ⟨by simp [hc], rfl⟩
  · exact absurd hres (by simp)

theorem validate_quota_launch_err (env : Env) (region : Region) (product : Product)
    (shared : Bool) (user : Nat) (now : Int) (cluster : Cluster) (s : Session)
    (res : Out Cluster) (ses : Session) (p : Problem)
    (hc : s.committed = false)
    (hR : validate_quota_launch env region product shared user now cluster s = (res, ses))
    (hres : res = Out.err p) :
    ses.committed = false ∧ (ses.rolled_back = true ∨ ses.pending = []
      ∨ p.detail = "Quota Exceeded. Please resize cluster") := by
  unfold validate_quota_launch at hR
  (repeat' split at hR)
  all_goals try (
    have hl := launch_create_err env region product user now cluster s res ses p hc hR hres
    exact ⟨hl.1, Or.inl hl.2⟩)
  all_goals (injection hR with h1 h2; subst h1; subst h2)
  all_goals
    first
      | exact absurd hres (fun hcon => Out.noConfusion hcon)
      | (injection hres with h3; subst h3;
          first
            | exact ⟨by simp [hc], Or.inl rfl⟩
            | exact ⟨hc, Or.inr (Or.inr rfl)⟩)

theorem resolve_project_ok_flags (env : Env) (region : Region) (shared : Bool) (user : Nat)
    (pf : Option Nat) (s : Session) (project : Project) (s1 : Session)
    (h : resolve_project env region shared user pf s = Except.ok (project, s1)) :
    s1.committed = s.committed ∧ s1.rolled_back = s.rolled_back := by
  unfold resolve_project at h
  (repeat' split at h)
  all_goals try simp_all
  all_goals try (split at h <;> simp_all)
  all_goals (
    obtain ⟨h1, h2⟩ := h
    subst h2
    exact ⟨by simp, by simp⟩)

/-- Claim C2 (amended): a create_cluster call that fails never commits,
and one of three things holds about its storage session when the
error is returned: the transaction was rolled back in full (the
param-validation failure, the quota-computation failure and the job
launch failure all roll back), or nothing had been written at all, or
the failure is the quota-exceeded rejection, which returns the error
with the transaction still open (the pending rows are left
uncommitted for the framework to discard, never committed by this
module). -/
theorem C2_rollback_amended (env : Env) (now : Int) (body : CreateBody) (user : Nat)
    (p : Problem) (h : (create_cluster env now body user).1 = Out.err p) :
    (create_cluster env now body user).2.committed = false
    ∧ ((create_cluster env now body user).2.rolled_back = true
        ∨ (create_cluster env now body user).2.pending = []
        ∨ p.detail = "Quota Exceeded. Please resize cluster") := by
  rcases hR : create_cluster env now body user with ⟨res, ses⟩
  rw [hR] at h
  replace h : res = Out.err p := h
  unfold create_cluster at hR
  (repeat' split at hR)
  all_goals try (
    injection hR with h1 h2
    subst h1
    subst h2
    first
      | exact absurd h (fun hcon => Out.noConfusion hcon)
      | exact ⟨rfl, Or.inr (Or.inl rfl)⟩)
  all_goals (
    have hflags := resolve_project_ok_flags _ _ _ _ _ _ _ _ (by assumption)
    exact validate_quota_launch_err _ _ _ _ _ _ _ _ _ _ _ (by simp [hflags.1]) hR h)

/-- Witness environment for the amended C2: the Tower launch fails, so
the create rolls back. -/
def c2w_env : Env := { baseEnv with
  tower_template_launch := fun _ => Except.error () }

theorem C2_witness :
    (create_cluster c2w_env 0 c2_body 1).1 =
      Out.err ⟨500, "Internal Server Error", "Failed to trigger cluster creation.", []⟩
    ∧ (create_cluster c2w_env 0 c2_body 1).2.committed = false
    ∧ ((create_cluster c2w_env 0 c2_body 1).2.rolled_back = true
        ∨ (create_cluster c2w_env 0 c2_body 1).2.pending = []
        ∨ ("Failed to trigger cluster creation." : String) =
            "Quota Exceeded. Please resize cluster") := by
  have h0 : (create_cluster c2w_env 0 c2_body 1).1 =
      Out.err ⟨500, "Internal Server Error", "Failed to trigger cluster creation.", []⟩ := by
    decide
  have h := C2_rollback_amended c2w_env 0 c2_body 1
    ⟨500, "Internal Server Error", "Failed to trigger cluster creation.", []⟩ h0
  exact ⟨h0, h.1, h.2⟩

/- ## Claim C9 -/

theorem fqdn_lookup_mem (hs : List ClusterHost) (f : String) (h : ClusterHost)
    (hl : fqdn_lookup hs f = some h) : h ∈ hs ∧ h.fqdn = f := by
  unfold fqdn_lookup at hl
  have h1 := List.find?_some hl
  have h2 := List.mem_of_find?_eq_some hl
  exact ⟨List.mem_reverse.mp h2, by simpa using h1⟩

theorem fqdn_lookup_eq_some (hs : List ClusterHost) (h : ClusterHost)
    (hnd : (hs.map (fun x => x.fqdn)).Nodup) (hm : h ∈ hs) :
    fqdn_lookup hs h.fqdn = some h := by
  unfold fqdn_lookup
  cases hfind : hs.reverse.find? (fun x => x.fqdn == h.fqdn) with
  | none =>
    have hnone := List.find?_eq_none.mp hfind h (List.mem_reverse.mpr hm)
    simp at hnone
  | some h0 =>
    have h1 : h0.fqdn = h.fqdn := by simpa using List.find?_some hfind
    have h2 : h0 ∈ hs := List.mem_reverse.mp (List.mem_of_find?_eq_some hfind)
    rw [List.inj_on_of_nodup_map hnd h2 hm h1]

theorem reboot_loop_no_fail (env : Env) (target : List ClusterHost)
    (servers : List OsServer) (acc : List ClusterHost)
    (hok : ∀ srv ∈ servers, env.reboot_fails srv.hostname = false) :
    reboot_loop env target servers acc =
      Except.ok (acc ++ servers.filterMap (fun srv => fqdn_lookup target srv.hostname)) := by
  induction servers generalizing acc with
  | nil => simp [reboot_loop]
  | cons srv rest ih =>
    unfold reboot_loop
    cases hl : fqdn_lookup target srv.hostname with
    | none =>
      rw [ih acc (fun x hx => hok x (List.mem_cons_of_mem srv hx))]
      simp [List.filterMap_cons, hl]
    | some h =>
      rw [hok srv (List.mem_cons_self srv rest)]
      simp only [Bool.false_eq_true, if_false]
      rw [ih (acc ++ [h]) (fun x hx => hok x (List.mem_cons_of_mem srv hx))]
      simp [List.filterMap_cons, hl]

/-- Claim C9: a reboot_hosts call whose inventory listing and reboots
succeed reboots and returns exactly the requested hosts whose fqdn is
currently present in the cloud inventory: the returned id and fqdn
pairs are those of the inventory-matched selection, and a host is
matched if and only if it is among the selected hosts and its fqdn
occurs among the inventory hostnames (requested hosts absent from the
inventory are silently skipped).  The fqdn-uniqueness hypothesis is
the data-model invariant that fqdns are unique within a cluster. -/
theorem C9_reboot_inventory (env : Env) (cluster_id : Nat) (body : RebootBody) (user : Nat)
    (cluster : Cluster) (servers : List OsServer)
    (hfind : env.clusters.find? (fun c0 => c0.id == cluster_id) = some cluster)
    (haccess : user_can_access_cluster env cluster user = true)
    (hsrv : env.list_servers cluster.project_id = Except.ok servers)
    (hok : ∀ srv ∈ servers, env.reboot_fails srv.hostname = false)
    (hnd : ((select_hosts env cluster body.hosts).map (fun x => x.fqdn)).Nodup) :
    reboot_hosts env cluster_id body user =
      Out.ok ((servers.filterMap (fun srv =>
        fqdn_lookup (select_hosts env cluster body.hosts) srv.hostname)).map
          (fun h => (h.id, h.fqdn)))
    ∧ ∀ h : ClusterHost,
        (h ∈ servers.filterMap (fun srv =>
          fqdn_lookup (select_hosts env cluster body.hosts) srv.hostname)
        ↔ (h ∈ select_hosts env cluster body.hosts
            ∧ h.fqdn ∈ servers.map (fun srv => srv.hostname))) := by
  constructor
  · unfold reboot_hosts
    rw [hfind]
    simp only [haccess, Bool.not_true, Bool.false_eq_true, if_false]
    simp only [hsrv]
    simp only [reboot_loop_no_fail env _ servers [] hok]
    simp
  · intro h
    constructor
    · intro hm
      obtain ⟨srv, hsrv2, hlk⟩ := List.mem_filterMap.mp hm
      obtain ⟨hmem, hfq⟩ := fqdn_lookup_mem _ _ _ hlk
      exact ⟨hmem, List.mem_map.mpr ⟨srv, hsrv2, hfq.symm⟩⟩
    · rintro ⟨hmem, hfq⟩
      obtain ⟨srv, hsrv2, hname⟩ := List.mem_map.mp hfq
      refine List.mem_filterMap.mpr ⟨srv, hsrv2, ?_⟩
      rw [hname]
      exact fqdn_lookup_eq_some _ _ hnd hmem

def c9_cluster : Cluster :=
  ⟨300, "rb", 5, 10, 20, 1, none, ClusterStatus.active, 0, none, none, []⟩

def c9_env : Env := { baseEnv with
  clusters := [c9_cluster]
  hosts := [⟨1, 300, "h1.example.com"⟩, ⟨2, 300, "h2.example.com"⟩,
    ⟨3, 300, "h3.example.com"⟩]
  list_servers := fun pid =>
    if pid == 20 then Except.ok [⟨"h1.example.com"⟩, ⟨"h3.example.com"⟩]
    else Except.ok [] }

def c9_body : RebootBody := ⟨RebootTarget.all, "soft"⟩

theorem C9_witness :
    reboot_hosts c9_env 300 c9_body 1 =
      Out.ok [(1, "h1.example.com"), (3, "h3.example.com")] := by
  have h := C9_reboot_inventory c9_env 300 c9_body 1 c9_cluster
    [⟨"h1.example.com"⟩, ⟨"h3.example.com"⟩] (by decide) (by decide) rfl
    (by decide) (by decide)
  exact h.1.trans (by decide)

/- ## Claim C10 -/

/-- Claim C10: for a shared cluster the read operations get_cluster,
list_cluster_events, get_cluster_event, get_cluster_event_stdout and
list_cluster_hosts succeed for any principal (the canAccessCluster
check is bypassed by the shared flag), while the mutating operations
update_cluster_extra, delete_cluster and reboot_hosts still reject a
principal who is not admin, not the owner and not a member of the
cluster group with the access Forbidden error. -/
theorem C10_shared_access (env : Env) (now : Int) (cluster_id : Nat) (user user2 : Nat)
    (cluster : Cluster) (event_id : Nat) (erec : ClusterEventRec) (out : String)
    (ubody : UpdateBody) (rbody : RebootBody)
    (hfind : env.clusters.find? (fun c0 => c0.id == cluster_id) = some cluster)
    (hshared : cluster_is_shared env cluster = true) :
    get_cluster env cluster_id user = Out.ok cluster
    ∧ list_cluster_events env cluster_id user = Out.ok (cluster_events_of env cluster_id)
    ∧ (env.cluster_events.find? (fun r => r.id == event_id) = some erec →
        erec.event.cluster_id = cluster_id →
        get_cluster_event env event_id user = Out.ok erec.event)
    ∧ (env.cluster_events.find? (fun r => r.id == event_id && r.event.is_tower_job) =
          some erec →
        erec.event.cluster_id = cluster_id →
        env.tower_job_output erec.id = Except.ok out →
        get_cluster_event_stdout env event_id user = Out.ok out)
    ∧ list_cluster_hosts env cluster_id user =
        Out.ok (env.hosts.filter (fun h => h.cluster_id == cluster_id))
    ∧ (user_can_access_cluster env cluster user2 = false →
        (update_cluster_extra env now cluster_id ubody user2).result =
            Out.err ⟨403, "Forbidden", "You do not have access to this cluster.", []⟩
          ∧ delete_cluster env cluster_id user2 =
            Out.err ⟨403, "Forbidden", "You do not have access to this cluster.", []⟩
          ∧ reboot_hosts env cluster_id rbody user2 =
            Out.err ⟨403, "Forbidden", "You do not have access to this cluster.", []⟩) := by
  refine ⟨?_, ?_, ?_, ?_, ?_, ?_⟩
  · unfold get_cluster
    rw [hfind]
    simp [hshared]
  · unfold list_cluster_events
    rw [hfind]
    simp [hshared]
  · intro h1 h2
    unfold get_cluster_event
    simp only [h1]
    rw [h2]
    simp only [hfind]
    simp [hshared]
  · intro h1 h2 h3
    unfold get_cluster_event_stdout
    simp only [h1]
    rw [h2]
    simp only [hfind]
    simp [hshared, h3]
  · unfold list_cluster_hosts
    rw [hfind]
    simp [hshared]
  · intro hdenied
    refine ⟨?_, ?_, ?_⟩
    · unfold update_cluster_extra
      rw [hfind]
      simp [hdenied]
    · unfold delete_cluster
      rw [hfind]
      simp [hdenied]
    · unfold reboot_hosts
      rw [hfind]
      simp [hdenied]

def c10_cluster : Cluster :=
  ⟨600, "sh", 5, 10, 20, 1, some 99, ClusterStatus.active, 0, none, none, []⟩

def c10_erec : ClusterEventRec :=
  ⟨7, ClusterEvent.towerJob 600 1 0 (some 3) (some 55) ClusterStatus.queued⟩

def c10_env : Env := { baseEnv with
  clusters := [c10_cluster]
  cluster_events := [c10_erec]
  hosts := [⟨4, 600, "s1.example.com"⟩] }

def c10_ubody : UpdateBody := ⟨false, false, false, false, none, some (some 3), none, none⟩

theorem C10_witness :
    get_cluster c10_env 600 3 = Out.ok c10_cluster
    ∧ list_cluster_events c10_env 600 3 = Out.ok (cluster_events_of c10_env 600)
    ∧ get_cluster_event c10_env 7 3 = Out.ok c10_erec.event
    ∧ get_cluster_event_stdout c10_env 7 3 = Out.ok "tower output"
    ∧ list_cluster_hosts c10_env 600 3 =
        Out.ok (c10_env.hosts.filter (fun h => h.cluster_id == 600))
    ∧ (update_cluster_extra c10_env 0 600 c10_ubody 3).result =
        Out.err ⟨403, "Forbidden", "You do not have access to this cluster.", []⟩
    ∧ delete_cluster c10_env 600 3 =
        Out.err ⟨403, "Forbidden", "You do not have access to this cluster.", []⟩
    ∧ reboot_hosts c10_env 600 c9_body 3 =
        Out.err ⟨403, "Forbidden", "You do not have access to this cluster.", []⟩ := by
  have h := C10_shared_access c10_env 0 600 3 3 c10_cluster 7 c10_erec "tower output"
    c10_ubody c9_body (by decide) (by decide)
  have hm := h.2.2.2.2.2 (by decide)
  exact ⟨h.1, h.2.1, h.2.2.1 (by decide) (by decide),
    h.2.2.2.1 (by decide) (by decide) rfl, h.2.2.2.2.1, hm.1, hm.2.1, hm.2.2⟩
